import Mathlib

/-!
# Verification of the gowid modal dialog widget (widgets/dialog/dialog.go)

A shallow embedding of the dialog package: the dialog's lifecycle state
(`open`, `savedSubWidgetWidget`, `savedContainer`, the content wrapper's
dimension), the splice protocol (`Open` / `OpenExt` / `Close`), input routing
(`UserInput`), the body builder of `New`, and the `Maximizer` toggle.

Widgets are modelled as an inductive type; a Go `nil` interface value is the
constructor `Widget.nilW` (for widgets) or `Dim.nilD` (for dimensions).
Container child slots live in a `World` mapping container ids to their child
widget, mirroring Go reference semantics (the dialog stores the container id,
and writes through it mutate the shared slot).  A Go nil-pointer /
failed-type-assertion panic is modelled as `Option.none`.

Observer registries (`gowid.RunWidgetCallbacks`) are not part of this file's
source; following the spec's description ("fire all callbacks for a key
synchronously") each registry is modelled by a counter of fire events.
-/

namespace GowidDialog

/-- Widget dimensions (`gowid.IWidgetDimension`).  `nilD` is a Go nil
interface value; the other constructors are the gowid dimension values the
dialog code manipulates (`RenderFlow`, `RenderFixed`, `RenderWithWeight`,
`RenderWithRatio`, `RenderWithUnits`). -/
inductive Dim where
  | nilD
  | renderFlow
  | renderFixed
  | renderWithWeight (w : Int)
  | renderWithRat (r : Rat)
  | renderWithUnits (u : Int)
deriving DecidableEq, Repr

/-- Modelled from the spec: gowid's `IRenderFixed` interface test
(`width.(gowid.IRenderFixed)` in `OpenExt`), the "size to natural content
width" policy.  Among the dimension values here only `RenderFixed`
implements it. -/
def isRenderFixed : Dim → Bool
  | Dim.renderFixed => true
  | _ => false

/-- Widgets.  `nilW` is a Go nil widget interface; `base` is any opaque
widget identified by id; `overlayW bottom height width` is the
`overlay.Widget` built by `OpenExt` via
`overlay.New(w, container.SubWidget(), VAlignMiddle{}, height, HAlignMiddle{}, width)`
(the top layer is always the dialog itself, so it is not stored). -/
inductive Widget where
  | nilW
  | base (id : Nat)
  | overlayW (bottom : Widget) (height width : Dim)
deriving DecidableEq, Repr

/-- The mutable state of `dialog.Widget` relevant to the claims: the `open`
flag, the two saved restoration references, the content wrapper's dimension
(`contentWrapper.D`), the `NoEscapeClose` option, and one fire counter per
observer registry (`OpenCloseCB`, `SavedSubWidget`, `SavedContainer`). -/
structure DialogState where
  isOpen : Bool
  savedSubWidgetWidget : Widget
  savedContainer : Option Nat
  contentWrapperD : Dim
  noEscapeClose : Bool
  openCloseFires : Nat
  savedSubWidgetFires : Nat
  savedContainerFires : Nat
deriving DecidableEq, Repr

/-- The world: the dialog plus every container's child slot
(`gowid.ISettableComposite.SubWidget` / `SetSubWidget`), indexed by
container id.  A slot holding `Widget.nilW` is a container whose child is
nil. -/
structure World where
  dialog : DialogState
  slots : Nat → Widget

/-- Go source: `container.SetSubWidget(v, app)`: write `v` into container `cid`'s
child slot. -/
def setSlot (w : World) (cid : Nat) (v : Widget) : World :=
  { w with slots := fun c => if c = cid then v else w.slots c }

/-- Go source: `func (w *Widget) IsOpen() bool { return w.open }` -/
def IsOpen (w : World) : Bool :=
  w.dialog.isOpen

/-- Go source: `func (w *Widget) EscapeCloses() bool { return !w.Options.NoEscapeClose }` -/
def EscapeCloses (w : World) : Bool :=
  !w.dialog.noEscapeClose

/-- Go source: `func (w *Widget) SetOpen(open bool, app gowid.IApp)`: store the new
value and fire the `OpenCloseCB` registry iff the stored value changed. -/
def setOpen (w : World) (b : Bool) : World :=
  if w.dialog.isOpen != b then
    { w with dialog := { w.dialog with
        isOpen := b
        openCloseFires := w.dialog.openCloseFires + 1 } }
  else
    { w with dialog := { w.dialog with isOpen := b } }

/-- Go source: `func (w *Widget) SetSavedSubWidget(w2, app)`: store and fire the
`SavedSubWidget` registry unconditionally. -/
def SetSavedSubWidget (w : World) (w2 : Widget) : World :=
  { w with dialog := { w.dialog with
      savedSubWidgetWidget := w2
      savedSubWidgetFires := w.dialog.savedSubWidgetFires + 1 } }

/-- Go source: `func (w *Widget) SetSavedContainer(c, app)`: store and fire the
`SavedContainer` registry unconditionally. -/
def SetSavedContainer (w : World) (c : Option Nat) : World :=
  { w with dialog := { w.dialog with
      savedContainer := c
      savedContainerFires := w.dialog.savedContainerFires + 1 } }

/-- Go source: `func (w *Widget) SetContentWidth(d, app) { w.contentWrapper.D = d }`
(no observer registry is fired). -/
def SetContentWidth (w : World) (d : Dim) : World :=
  { w with dialog := { w.dialog with contentWrapperD := d } }

/-- Go source: `func Close(w IWidget, app gowid.IApp)`:
`w.SavedContainer().SetSubWidget(w.SavedSubWidget(), app); w.SetOpen(false, app)`.
Calling `SetSubWidget` through a nil `savedContainer` is a Go nil-interface
panic, modelled as `none`; the panic precedes `SetOpen`, so no observer
fires in that case. -/
def Close (w : World) : Option World :=
  match w.dialog.savedContainer with
  | none => none
  | some cid => some (setOpen (setSlot w cid w.dialog.savedSubWidgetWidget) false)

/-- Go source: `func OpenExt(w, container, width, height, app)`: build the overlay over
the container's current child, pick the content wrapper's dimension from the
width policy, record the restoration point, install the overlay, and open. -/
def OpenExt (w : World) (cid : Nat) (width height : Dim) : World :=
  let prior := w.slots cid
  let ov := Widget.overlayW prior height width
  let w1 := if isRenderFixed width then SetContentWidth w Dim.renderFixed
            else SetContentWidth w (Dim.renderWithWeight 1)
  let w2 := SetSavedSubWidget w1 prior
  let w3 := SetSavedContainer w2 (some cid)
  let w4 := setSlot w3 cid ov
  setOpen w4 true

/-- Go source: `func Open(w, container, width, app) { OpenExt(w, container, width, gowid.RenderFlow{}, app) }` -/
def Open (w : World) (cid : Nat) (width : Dim) : World :=
  OpenExt w cid width Dim.renderFlow

/-- Keys of `tcell.EventKey` relevant to the dialog: `KeyCtrlC`, `KeyEsc`,
and everything else. -/
inductive Key where
  | ctrlC
  | esc
  | other (n : Nat)
deriving DecidableEq, Repr

/-- Input events: a `*tcell.EventKey` carrying a key, or any non-key event
(mouse, resize, ...). -/
inductive Event where
  | key (k : Key)
  | nonKey (n : Nat)
deriving DecidableEq, Repr

/-- The cancel-gesture test of `UserInput`:
`evk, ok := ev.(*tcell.EventKey); ok && (evk.Key() == tcell.KeyCtrlC || evk.Key() == tcell.KeyEsc)`. -/
def isCancelEvent : Event → Bool
  | Event.key Key.ctrlC => true
  | Event.key Key.esc => true
  | _ => false

/-- Go source: `func UserInput(w IWidget, ev, size, focus, app) bool`.  The body's
selectable-aware forwarding `gowid.UserInputIfSelectable(w.SubWidget(), ...)`
is modelled from the spec ("only dispatch if the body can accept focus for
this event") by the parameter `bodyInput`, the body's response to each
event.  While open, a cancel event with `EscapeCloses()` runs
`w.GetNoFunction().Changed(app, w)`, which is `w.Close(app)` (and may panic,
hence `Option`); every other event is forwarded with the result discarded
and `true` returned.  While closed, the body's result is returned. -/
def UserInput (bodyInput : Event → Bool) (w : World) (ev : Event) :
    Option (World × Bool) :=
  if w.dialog.isOpen then
    if isCancelEvent ev && EscapeCloses w then
      (Close w).map (fun w2 => (w2, true))
    else
      some (w, true)
  else
    some (w, bodyInput ev)

/-- The type assertion `.(*overlay.Widget)` followed by `.Width()`: the
overlay's width policy, or a panic (`none`) if the widget is not an
overlay. -/
def overlayWidthOf : Widget → Option Dim
  | Widget.overlayW _ _ wd => some wd
  | _ => none

/-- The type assertion `.(*overlay.Widget)` followed by `.Height()`. -/
def overlayHeightOf : Widget → Option Dim
  | Widget.overlayW _ ht _ => some ht
  | _ => none

/-- The type assertion `.(*overlay.Widget)` followed by `.SetWidth(d)`:
the overlay with its width policy replaced, or a panic (`none`). -/
def overlaySetWidth : Widget → Dim → Option Widget
  | Widget.overlayW b ht _, d => some (Widget.overlayW b ht d)
  | _, _ => none

/-- The type assertion `.(*overlay.Widget)` followed by `.SetHeight(d)`. -/
def overlaySetHeight : Widget → Dim → Option Widget
  | Widget.overlayW b _ wd, d => some (Widget.overlayW b d wd)
  | _, _ => none

/-- Go source: `func (w *Widget) Width() gowid.IWidgetDimension`:
`w.SavedContainer().SubWidget().(*overlay.Widget).Width()`.  A nil
`savedContainer` or a child that is not the overlay is a panic (`none`). -/
def dialogWidth (w : World) : Option Dim :=
  w.dialog.savedContainer.bind (fun cid => overlayWidthOf (w.slots cid))

/-- Go source: `func (w *Widget) Height()`: like `dialogWidth`, reading the overlay's
height policy. -/
def dialogHeight (w : World) : Option Dim :=
  w.dialog.savedContainer.bind (fun cid => overlayHeightOf (w.slots cid))

/-- Go source: `func (w *Widget) SetWidth(d, app)`:
`w.SavedContainer().SubWidget().(*overlay.Widget).SetWidth(d, app)` —
mutates the overlay sitting in the saved container's child slot. -/
def dialogSetWidth (w : World) (d : Dim) : Option World :=
  w.dialog.savedContainer.bind (fun cid =>
    (overlaySetWidth (w.slots cid) d).map (setSlot w cid))

/-- Go source: `func (w *Widget) SetHeight(d, app)`: like `dialogSetWidth` for the
overlay's height policy. -/
def dialogSetHeight (w : World) (d : Dim) : Option World :=
  w.dialog.savedContainer.bind (fun cid =>
    (overlaySetHeight (w.slots cid) d).map (setSlot w cid))

/-- Go source: `type Maximizer struct { Maxed bool; Width, Height gowid.IWidgetDimension }`.
The Go zero value is `⟨false, nilD, nilD⟩`. -/
structure Maximizer where
  maxed : Bool
  width : Dim
  height : Dim
deriving DecidableEq, Repr

/-- Go source: `func (m *Maximizer) Maximize(w IWidget, app gowid.IApp) bool`: no-op
returning false if already maximized; otherwise record the current width and
height policies, overwrite both with `RenderWithRatio{R: 1.0}`, set
`Maxed = true` and return true. -/
def Maximize (m : Maximizer) (w : World) : Option (Maximizer × World × Bool) :=
  if m.maxed then some (m, w, false)
  else
    (dialogWidth w).bind (fun wd =>
      (dialogHeight w).bind (fun ht =>
        (dialogSetWidth w (Dim.renderWithRat 1)).bind (fun w1 =>
          (dialogSetHeight w1 (Dim.renderWithRat 1)).map (fun w2 =>
            ({ maxed := true, width := wd, height := ht }, w2, true)))))

/-- Go source: `func (m *Maximizer) Unmaximize(w IWidget, app gowid.IApp) bool`: no-op
returning false if not maximized; otherwise write the recorded policies back
and set `Maxed = false` (the recorded values themselves are left in place). -/
def Unmaximize (m : Maximizer) (w : World) : Option (Maximizer × World × Bool) :=
  if !m.maxed then some (m, w, false)
  else
    (dialogSetWidth w m.width).bind (fun w1 =>
      (dialogSetHeight w1 m.height).map (fun w2 =>
        ({ m with maxed := false }, w2, true)))

/-- Go source: `type Button struct { Msg string; Action gowid.WidgetChangedFunction }`.
A `none` action is a Go nil function value. Explicit actions are opaque and
identified by id. -/
structure Button where
  msg : String
  action : Option Nat
deriving DecidableEq, Repr

/-- What a dialog button's click callback does: either `res.Close(app)` on
the very dialog being constructed (wired when `b.Action == nil`), or the
caller's explicit action. -/
inductive ClickAction where
  | closeSelf
  | action (f : Nat)
deriving DecidableEq, Repr

/-- The click wiring of `New` for one button spec:
`if b.Action == nil { bw.OnClick(... res.Close(app) ...) } else { bw.OnClick(... b.Action ...) }`. -/
def buttonTarget (b : Button) : ClickAction :=
  match b.action with
  | none => ClickAction.closeSelf
  | some f => ClickAction.action f

/-- One row of the pile `New` builds: the content wrapper
(`&gowid.ContainerWidget{content, gowid.RenderWithWeight{W: 1}}`), the
styled divider, or the button columns. -/
inductive BodyPart where
  | contentRow (contentId : Nat)
  | dividerRow
  | buttonRow (targets : List ClickAction)
deriving DecidableEq, Repr

/-- The pile of rows `New` assembles: the content wrapper first, then —
only when `len(colsW) > 0`, i.e. at least one button was specified — the
divider and the button columns. -/
def newPileOf (contentId : Nat) (buttons : List Button) : List BodyPart :=
  let wrapper := BodyPart.contentRow contentId
  let colsW := buttons.map buttonTarget
  if colsW.length > 0 then [wrapper, BodyPart.dividerRow, BodyPart.buttonRow colsW]
  else [wrapper]

/-- All click targets appearing in a dialog body. -/
def clickTargets : List BodyPart → List ClickAction
  | [] => []
  | BodyPart.buttonRow ts :: rest => ts ++ clickTargets rest
  | _ :: rest => clickTargets rest

/-- The dialog state `New` produces: Go zero values for `open`,
`savedSubWidgetWidget` and `savedContainer`, the content wrapper's dimension
`RenderWithWeight{W: 1}`, fresh callback registries. -/
def newDialogState (noEscapeClose : Bool) : DialogState :=
  { isOpen := false
    savedSubWidgetWidget := Widget.nilW
    savedContainer := none
    contentWrapperD := Dim.renderWithWeight 1
    noEscapeClose := noEscapeClose
    openCloseFires := 0
    savedSubWidgetFires := 0
    savedContainerFires := 0 }

/-- A world holding a freshly constructed dialog and the given container
slots. -/
def mkWorld (slots : Nat → Widget) (noEscapeClose : Bool) : World :=
  { dialog := newDialogState noEscapeClose, slots := slots }

/-- The dialog lifecycle operations a caller can invoke. -/
inductive DlgOp where
  | opOpen (cid : Nat) (width : Dim)
  | opClose
  | opSetOpen (b : Bool)
deriving DecidableEq, Repr

/-- Run one lifecycle operation (`Close` can panic, hence `Option`). -/
def execOp (w : World) : DlgOp → Option World
  | DlgOp.opOpen cid width => some (Open w cid width)
  | DlgOp.opClose => Close w
  | DlgOp.opSetOpen b => some (setOpen w b)

/-- Run a sequence of lifecycle operations. -/
def execOps (w : World) : List DlgOp → Option World
  | [] => some w
  | op :: ops => (execOp w op).bind (fun wi => execOps wi ops)

/-- The splice-protocol operations: `Open` and `Close` only, excluding raw
`SetOpen` (which is exposed for programmatic control and can decouple the
open flag from the saved references). -/
def isSpliceOp : DlgOp → Bool
  | DlgOp.opSetOpen _ => false
  | _ => true

/-- The invariant the saved restoration references actually satisfy: no
container slot is nil, and the saved container and saved child are recorded
together (both absent before the first `Open`, both present ever after). -/
def Inv (w : World) : Prop :=
  (∀ c, w.slots c ≠ Widget.nilW) ∧
    (w.dialog.savedContainer.isSome = true ↔ w.dialog.savedSubWidgetWidget ≠ Widget.nilW)

/-- The splice-protocol invariant: an open dialog has a recorded container. -/
def spliceInv (w : World) : Prop :=
  w.dialog.isOpen = true → w.dialog.savedContainer.isSome = true

/-! ## Projection lemmas for the primitive operations -/

@[simp]
theorem setSlot_slots (w : World) (cid : Nat) (v : Widget) (c : Nat) :
    (setSlot w cid v).slots c = if c = cid then v else w.slots c := rfl

@[simp]
theorem setSlot_dialog (w : World) (cid : Nat) (v : Widget) :
    (setSlot w cid v).dialog = w.dialog := rfl

@[simp]
theorem setOpen_isOpen (w : World) (b : Bool) :
    (setOpen w b).dialog.isOpen = b := by
  unfold setOpen; split <;> rfl

@[simp]
theorem setOpen_savedContainer (w : World) (b : Bool) :
    (setOpen w b).dialog.savedContainer = w.dialog.savedContainer := by
  unfold setOpen; split <;> rfl

@[simp]
theorem setOpen_savedSubWidgetWidget (w : World) (b : Bool) :
    (setOpen w b).dialog.savedSubWidgetWidget = w.dialog.savedSubWidgetWidget := by
  unfold setOpen; split <;> rfl

@[simp]
theorem setOpen_noEscapeClose (w : World) (b : Bool) :
    (setOpen w b).dialog.noEscapeClose = w.dialog.noEscapeClose := by
  unfold setOpen; split <;> rfl

@[simp]
theorem setOpen_contentWrapperD (w : World) (b : Bool) :
    (setOpen w b).dialog.contentWrapperD = w.dialog.contentWrapperD := by
  unfold setOpen; split <;> rfl

@[simp]
theorem setOpen_slots (w : World) (b : Bool) :
    (setOpen w b).slots = w.slots := by
  unfold setOpen; split <;> rfl

theorem setOpen_openCloseFires (w : World) (b : Bool) :
    (setOpen w b).dialog.openCloseFires =
      if w.dialog.isOpen != b then w.dialog.openCloseFires + 1
      else w.dialog.openCloseFires := by
  unfold setOpen; split <;> simp_all

@[simp]
theorem setOpen_savedSubWidgetFires (w : World) (b : Bool) :
    (setOpen w b).dialog.savedSubWidgetFires = w.dialog.savedSubWidgetFires := by
  unfold setOpen; split <;> rfl

@[simp]
theorem setOpen_savedContainerFires (w : World) (b : Bool) :
    (setOpen w b).dialog.savedContainerFires = w.dialog.savedContainerFires := by
  unfold setOpen; split <;> rfl

@[simp]
theorem OpenExt_savedContainer (w : World) (cid : Nat) (width height : Dim) :
    (OpenExt w cid width height).dialog.savedContainer = some cid := by
  unfold OpenExt
  cases h : isRenderFixed width <;>
    simp [h, SetContentWidth, SetSavedSubWidget, SetSavedContainer]

@[simp]
theorem OpenExt_savedSubWidgetWidget (w : World) (cid : Nat) (width height : Dim) :
    (OpenExt w cid width height).dialog.savedSubWidgetWidget = w.slots cid := by
  unfold OpenExt
  cases h : isRenderFixed width <;>
    simp [h, SetContentWidth, SetSavedSubWidget, SetSavedContainer]

@[simp]
theorem OpenExt_isOpen (w : World) (cid : Nat) (width height : Dim) :
    (OpenExt w cid width height).dialog.isOpen = true := by
  unfold OpenExt
  cases h : isRenderFixed width <;> simp [h]

@[simp]
theorem OpenExt_noEscapeClose (w : World) (cid : Nat) (width height : Dim) :
    (OpenExt w cid width height).dialog.noEscapeClose = w.dialog.noEscapeClose := by
  unfold OpenExt
  cases h : isRenderFixed width <;>
    simp [h, SetContentWidth, SetSavedSubWidget, SetSavedContainer]

@[simp]
theorem OpenExt_slots (w : World) (cid : Nat) (width height : Dim) (c : Nat) :
    (OpenExt w cid width height).slots c =
      if c = cid then Widget.overlayW (w.slots cid) height width else w.slots c := by
  unfold OpenExt
  cases h : isRenderFixed width <;>
    simp [h, SetContentWidth, SetSavedSubWidget, SetSavedContainer]

theorem OpenExt_openCloseFires (w : World) (cid : Nat) (width height : Dim) :
    (OpenExt w cid width height).dialog.openCloseFires =
      if w.dialog.isOpen then w.dialog.openCloseFires
      else w.dialog.openCloseFires + 1 := by
  unfold OpenExt
  rw [setOpen_openCloseFires]
  cases h : isRenderFixed width <;>
    cases ho : w.dialog.isOpen <;>
      simp [h, ho, SetContentWidth, SetSavedSubWidget, SetSavedContainer]

theorem Close_eq (w : World) (cid : Nat) (h : w.dialog.savedContainer = some cid) :
    Close w = some (setOpen (setSlot w cid w.dialog.savedSubWidgetWidget) false) := by
  unfold Close; rw [h]

/-! ## Claim theorems -/

/-- C1: for every container `cid` whose child slot holds widget `X`,
`Open` followed by `Close` restores the slot to exactly `X`, and the dialog
reports closed afterwards. -/
theorem c1_open_then_close_restores (w : World) (cid : Nat) (X : Widget)
    (width : Dim) (hX : w.slots cid = X) :
    ∃ w2, Close (Open w cid width) = some w2 ∧
      w2.slots cid = X ∧ IsOpen w2 = false := by
  have hc := Close_eq (Open w cid width) cid (by simp [Open])
  refine ⟨_, hc, ?_, ?_⟩
  · simp [Open, hX]
  · simp [IsOpen]

/-- Witness for C1 at a concrete world: container 0 holds `base 5`; after
`Open` then `Close` it holds `base 5` again and the dialog is closed. -/
theorem c1_witness :
    (mkWorld (fun _ => Widget.base 5) false).slots 0 = Widget.base 5 ∧
      ∃ w2, Close (Open (mkWorld (fun _ => Widget.base 5) false) 0 Dim.renderFlow) = some w2 ∧
        w2.slots 0 = Widget.base 5 ∧ IsOpen w2 = false :=
  ⟨rfl, c1_open_then_close_restores (mkWorld (fun _ => Widget.base 5) false) 0
    (Widget.base 5) Dim.renderFlow rfl⟩

theorem Inv_execOp (w w' : World) (op : DlgOp) (hw : Inv w)
    (h : execOp w op = some w') : Inv w' := by
  cases op with
  | opOpen cid width =>
    simp only [execOp, Option.some.injEq] at h
    subst h
    constructor
    · intro c
      simp only [Open, OpenExt_slots]
      split
      · intro hcontra; exact Widget.noConfusion hcontra
      · exact hw.1 c
    · simp [Open, hw.1 cid]
  | opClose =>
    unfold execOp Close at h
    cases hsc : w.dialog.savedContainer with
    | none => rw [hsc] at h; exact absurd h (by simp)
    | some cid =>
      rw [hsc] at h
      simp only [Option.some.injEq] at h
      subst h
      have hsub : w.dialog.savedSubWidgetWidget ≠ Widget.nilW :=
        hw.2.mp (by simp [hsc])
      constructor
      · intro c
        simp only [setOpen_slots, setSlot_slots]
        split
        · exact hsub
        · exact hw.1 c
      · simpa [hsc] using hw.2
  | opSetOpen b =>
    simp only [execOp, Option.some.injEq] at h
    subst h
    exact ⟨fun c => by simpa using hw.1 c, by simpa using hw.2⟩

theorem Inv_execOps (w : World) (ops : List DlgOp) (w' : World) (hw : Inv w)
    (h : execOps w ops = some w') : Inv w' := by
  induction ops generalizing w with
  | nil => simp only [execOps, Option.some.injEq] at h; subst h; exact hw
  | cons op rest ih =>
    simp only [execOps, Option.bind_eq_some] at h
    obtain ⟨wi, h1, h2⟩ := h
    exact ih wi (Inv_execOp w wi op hw h1) h2

/-- C2 counterexample: from a fresh dialog over a container holding
`base 0`, run `Open` then `Close`.  The dialog reports closed
(`IsOpen = false`), yet `savedContainer` is not nil (it is still container
`0`) and `savedSubWidgetWidget` is not nil (it is still `base 0`): `Close`
never clears the saved restoration references, so the claimed equivalence
`isOpen ⇔ savedContainer ≠ nil ⇔ savedChild ≠ nil` fails just after
`Close`. -/
theorem c2_counterexample :
    (Close (Open (mkWorld (fun _ => Widget.base 0) false) 0 Dim.renderFlow)).map
      (fun w2 => (IsOpen w2, w2.dialog.savedContainer == none,
                  w2.dialog.savedSubWidgetWidget == Widget.nilW))
      = some (false, false, false) := rfl

/-- C2 (amended): for a freshly constructed dialog over containers whose
child slots are all non-nil, after any sequence of Open/Close/SetOpen
operations the two saved restoration references are recorded together:
`savedContainer` is non-nil exactly when the saved child is non-nil (both
nil before the first `Open`, both non-nil ever after).  The claimed
equivalence with `isOpen` does not hold, because `Close` leaves both
references in place. -/
theorem c2_amended_saved_refs_recorded_together (slots : Nat → Widget)
    (ne : Bool) (ops : List DlgOp) (w' : World)
    (hs : ∀ c, slots c ≠ Widget.nilW)
    (h : execOps (mkWorld slots ne) ops = some w') :
    (w'.dialog.savedContainer.isSome = true ↔
      w'.dialog.savedSubWidgetWidget ≠ Widget.nilW) := by
  have hw : Inv (mkWorld slots ne) := by
    constructor
    · exact hs
    · simp [mkWorld, newDialogState]
  exact (Inv_execOps (mkWorld slots ne) ops w' hw h).2

/-- Witness for C2 (amended) after a single concrete `Open`: both saved
references are non-nil together. -/
theorem c2_amended_witness :
    ((Open (mkWorld (fun _ => Widget.base 0) false) 0 Dim.renderFlow).dialog.savedContainer.isSome = true ↔
      (Open (mkWorld (fun _ => Widget.base 0) false) 0 Dim.renderFlow).dialog.savedSubWidgetWidget ≠ Widget.nilW) :=
  c2_amended_saved_refs_recorded_together (fun _ => Widget.base 0) false
    [DlgOp.opOpen 0 Dim.renderFlow] _ (fun _ => by simp) rfl

theorem spliceInv_execOp (w w' : World) (op : DlgOp) (hop : isSpliceOp op = true)
    (_hw : spliceInv w) (h : execOp w op = some w') : spliceInv w' := by
  cases op with
  | opOpen cid width =>
    simp only [execOp, Option.some.injEq] at h
    subst h
    intro _
    simp [Open]
  | opClose =>
    unfold execOp Close at h
    cases hsc : w.dialog.savedContainer with
    | none => rw [hsc] at h; exact absurd h (by simp)
    | some cid =>
      rw [hsc] at h
      simp only [Option.some.injEq] at h
      subst h
      intro hcontra
      simp at hcontra
  | opSetOpen b => exact absurd hop (by simp [isSpliceOp])

theorem spliceInv_execOps (w : World) (ops : List DlgOp) (w' : World)
    (hops : ∀ op ∈ ops, isSpliceOp op = true)
    (hw : spliceInv w) (h : execOps w ops = some w') : spliceInv w' := by
  induction ops generalizing w with
  | nil => simp only [execOps, Option.some.injEq] at h; subst h; exact hw
  | cons op rest ih =>
    simp only [execOps, Option.bind_eq_some] at h
    obtain ⟨wi, h1, h2⟩ := h
    exact ih wi (fun o ho => hops o (List.mem_cons_of_mem op ho))
      (spliceInv_execOp w wi op (hops op (List.mem_cons_self op rest)) hw h1) h2

/-- C9: `Close` on a dialog whose `savedContainer` is nil panics on the
unguarded `SetSubWidget` write (modelled as `none`); since the panic
precedes `SetOpen`, the open/close observer registry does not fire.  For a
freshly constructed dialog driven only by the splice protocol (`Open` and
`Close`, no raw `SetOpen`), being open guarantees a non-nil
`savedContainer`, so that failing branch is unreachable and `Close`
succeeds. -/
theorem c9_close_nil_container (slots : Nat → Widget) (ne : Bool)
    (ops : List DlgOp) (w' : World)
    (hops : ∀ op ∈ ops, isSpliceOp op = true)
    (h : execOps (mkWorld slots ne) ops = some w') :
    (∀ v : World, v.dialog.savedContainer = none → Close v = none) ∧
      (IsOpen w' = true → w'.dialog.savedContainer ≠ none ∧
        ∃ w2, Close w' = some w2) := by
  constructor
  · intro v hv
    unfold Close
    rw [hv]
  · intro hopen
    have hinv : spliceInv w' := by
      refine spliceInv_execOps (mkWorld slots ne) ops w' hops ?_ h
      intro hcontra
      simp [mkWorld, newDialogState, IsOpen] at hcontra
    have hsome := hinv hopen
    cases hsc : w'.dialog.savedContainer with
    | none => rw [hsc] at hsome; simp at hsome
    | some cid =>
      exact ⟨by simp, _, Close_eq w' cid hsc⟩

/-- Witness for C9: after one concrete `Open`, the dialog is open, its
saved container is non-nil, and `Close` succeeds. -/
theorem c9_witness :
    (∀ v : World, v.dialog.savedContainer = none → Close v = none) ∧
      (IsOpen (Open (mkWorld (fun _ => Widget.base 0) false) 0 Dim.renderFlow) = true →
        (Open (mkWorld (fun _ => Widget.base 0) false) 0 Dim.renderFlow).dialog.savedContainer ≠ none ∧
          ∃ w2, Close (Open (mkWorld (fun _ => Widget.base 0) false) 0 Dim.renderFlow) = some w2) :=
  c9_close_nil_container (fun _ => Widget.base 0) false
    [DlgOp.opOpen 0 Dim.renderFlow] _ (fun op hop => by
      simp only [List.mem_singleton] at hop
      subst hop
      rfl) rfl

/-- C3: while the dialog is open, `UserInput` reports every event as
handled (`true`) regardless of the body's own response; while closed, it
returns exactly the body's selectable-aware forwarding result and leaves
the state untouched. -/
theorem c3_userinput_modal_capture (bodyInput : Event → Bool) (w : World)
    (ev : Event) :
    (w.dialog.isOpen = true →
      ∀ w2 r, UserInput bodyInput w ev = some (w2, r) → r = true)
    ∧ (w.dialog.isOpen = false →
      UserInput bodyInput w ev = some (w, bodyInput ev)) := by
  constructor
  · intro hopen w2 r h
    unfold UserInput at h
    rw [hopen] at h
    simp only [if_true] at h
    split at h
    · rw [Option.map_eq_some'] at h
      obtain ⟨a, -, ha⟩ := h
      cases ha
      rfl
    · simp only [Option.some.injEq, Prod.mk.injEq] at h
      exact h.2.symm
  · intro hclosed
    unfold UserInput
    rw [hclosed]
    simp

/-- Witness for C3 on a concrete closed dialog: the body's response (here
`false`) is returned unchanged. -/
theorem c3_witness :
    UserInput (fun _ => false) (mkWorld (fun _ => Widget.base 1) false)
        (Event.nonKey 0)
      = some (mkWorld (fun _ => Widget.base 1) false, false) :=
  (c3_userinput_modal_capture (fun _ => false)
    (mkWorld (fun _ => Widget.base 1) false) (Event.nonKey 0)).2 rfl

/-- C4: `EscapeCloses()` is the negation of the `NoEscapeClose` option.
While open (here: just opened over a container holding `X`), a cancel event
(escape key or interrupt) with `NoEscapeClose == false` runs the no/close
callback — the default `Close` — restoring the prior child `X` and leaving
the dialog closed; with `NoEscapeClose == true` the event is forwarded into
the body instead, the state is unchanged and the dialog stays open. -/
theorem c4_escape_closes (w : World) (cid : Nat) (X : Widget) (width : Dim)
    (bodyInput : Event → Bool) (ev : Event)
    (hX : w.slots cid = X) (hcancel : isCancelEvent ev = true) :
    EscapeCloses w = !w.dialog.noEscapeClose
    ∧ (w.dialog.noEscapeClose = false →
        ∃ w2, UserInput bodyInput (Open w cid width) ev = some (w2, true)
          ∧ w2.slots cid = X ∧ IsOpen w2 = false)
    ∧ (w.dialog.noEscapeClose = true →
        UserInput bodyInput (Open w cid width) ev = some (Open w cid width, true)
          ∧ IsOpen (Open w cid width) = true) := by
  refine ⟨rfl, ?_, ?_⟩
  · intro hne
    have hc := Close_eq (Open w cid width) cid (by simp [Open])
    have h1 : (Open w cid width).dialog.isOpen = true := by simp [Open]
    have h2 : EscapeCloses (Open w cid width) = true := by
      simp [EscapeCloses, Open, hne]
    refine ⟨setOpen (setSlot (Open w cid width) cid
      (Open w cid width).dialog.savedSubWidgetWidget) false, ?_, ?_, ?_⟩
    · unfold UserInput
      rw [h1, hcancel, h2, hc]
      simp
    · simp [Open, hX]
    · simp [IsOpen]
  · intro hne
    have h1 : (Open w cid width).dialog.isOpen = true := by simp [Open]
    have h2 : EscapeCloses (Open w cid width) = false := by
      simp [EscapeCloses, Open, hne]
    constructor
    · unfold UserInput
      rw [h1, hcancel, h2]
      simp
    · simp [IsOpen, Open]

/-- Witness for C4 at a concrete world (container 0 holding `base 7`,
`NoEscapeClose == false`) and the concrete escape-key event. -/
theorem c4_witness :
    isCancelEvent (Event.key Key.esc) = true ∧
    (EscapeCloses (mkWorld (fun _ => Widget.base 7) false)
        = !(mkWorld (fun _ => Widget.base 7) false).dialog.noEscapeClose
      ∧ ((mkWorld (fun _ => Widget.base 7) false).dialog.noEscapeClose = false →
          ∃ w2, UserInput (fun _ => false)
              (Open (mkWorld (fun _ => Widget.base 7) false) 0 Dim.renderFlow)
              (Event.key Key.esc) = some (w2, true)
            ∧ w2.slots 0 = Widget.base 7 ∧ IsOpen w2 = false)
      ∧ ((mkWorld (fun _ => Widget.base 7) false).dialog.noEscapeClose = true →
          UserInput (fun _ => false)
              (Open (mkWorld (fun _ => Widget.base 7) false) 0 Dim.renderFlow)
              (Event.key Key.esc)
            = some (Open (mkWorld (fun _ => Widget.base 7) false) 0 Dim.renderFlow, true)
          ∧ IsOpen (Open (mkWorld (fun _ => Widget.base 7) false) 0 Dim.renderFlow) = true)) :=
  ⟨rfl, c4_escape_closes (mkWorld (fun _ => Widget.base 7) false) 0
    (Widget.base 7) Dim.renderFlow (fun _ => false) (Event.key Key.esc) rfl rfl⟩

/-- C5: `SetOpen` bumps the open/close registry's fire count exactly when
the stored value changes; from a closed dialog, `Open` followed by `Close`
fires it exactly twice, and two consecutive `SetOpen(true)` calls fire it
exactly once. -/
theorem c5_openclose_fires (w : World) (cid : Nat) (width : Dim) (b : Bool)
    (hclosed : w.dialog.isOpen = false) :
    ((setOpen w b).dialog.openCloseFires =
      if w.dialog.isOpen != b then w.dialog.openCloseFires + 1
      else w.dialog.openCloseFires)
    ∧ (∃ w2, Close (Open w cid width) = some w2 ∧
        w2.dialog.openCloseFires = w.dialog.openCloseFires + 2)
    ∧ (setOpen (setOpen w true) true).dialog.openCloseFires =
        w.dialog.openCloseFires + 1 := by
  refine ⟨setOpen_openCloseFires w b, ?_, ?_⟩
  · have hc := Close_eq (Open w cid width) cid (by simp [Open])
    refine ⟨_, hc, ?_⟩
    rw [setOpen_openCloseFires]
    simp [Open, OpenExt_openCloseFires, hclosed]
  · rw [setOpen_openCloseFires, setOpen_openCloseFires, setOpen_isOpen]
    simp [hclosed]

/-- Witness for C5 at a concrete closed dialog. -/
theorem c5_witness :
    (mkWorld (fun _ => Widget.base 0) true).dialog.isOpen = false ∧
    (((setOpen (mkWorld (fun _ => Widget.base 0) true) true).dialog.openCloseFires =
        if (mkWorld (fun _ => Widget.base 0) true).dialog.isOpen != true then
          (mkWorld (fun _ => Widget.base 0) true).dialog.openCloseFires + 1
        else (mkWorld (fun _ => Widget.base 0) true).dialog.openCloseFires)
      ∧ (∃ w2, Close (Open (mkWorld (fun _ => Widget.base 0) true) 0 Dim.renderFixed) = some w2 ∧
          w2.dialog.openCloseFires =
            (mkWorld (fun _ => Widget.base 0) true).dialog.openCloseFires + 2)
      ∧ (setOpen (setOpen (mkWorld (fun _ => Widget.base 0) true) true) true).dialog.openCloseFires =
          (mkWorld (fun _ => Widget.base 0) true).dialog.openCloseFires + 1) :=
  ⟨rfl, c5_openclose_fires (mkWorld (fun _ => Widget.base 0) true) 0
    Dim.renderFixed true rfl⟩

theorem setOpen_noop (w : World) (b : Bool) (h : w.dialog.isOpen = b) :
    setOpen w b = w := by
  unfold setOpen
  rw [h]
  simp only [bne_self_eq_false, Bool.false_eq_true, if_false]
  rw [← h]

theorem dialogWidth_eq (w : World) (cid : Nat) (b : Widget) (h0 w0 : Dim)
    (hc : w.dialog.savedContainer = some cid)
    (hs : w.slots cid = Widget.overlayW b h0 w0) :
    dialogWidth w = some w0 := by
  unfold dialogWidth
  rw [hc]
  simp only [Option.some_bind]
  rw [hs]
  rfl

theorem dialogHeight_eq (w : World) (cid : Nat) (b : Widget) (h0 w0 : Dim)
    (hc : w.dialog.savedContainer = some cid)
    (hs : w.slots cid = Widget.overlayW b h0 w0) :
    dialogHeight w = some h0 := by
  unfold dialogHeight
  rw [hc]
  simp only [Option.some_bind]
  rw [hs]
  rfl

theorem dialogSetWidth_eq (w : World) (cid : Nat) (b : Widget) (h0 w0 d : Dim)
    (hc : w.dialog.savedContainer = some cid)
    (hs : w.slots cid = Widget.overlayW b h0 w0) :
    dialogSetWidth w d = some (setSlot w cid (Widget.overlayW b h0 d)) := by
  unfold dialogSetWidth
  rw [hc]
  simp only [Option.some_bind]
  rw [hs]
  rfl

theorem dialogSetHeight_eq (w : World) (cid : Nat) (b : Widget) (h0 w0 d : Dim)
    (hc : w.dialog.savedContainer = some cid)
    (hs : w.slots cid = Widget.overlayW b h0 w0) :
    dialogSetHeight w d = some (setSlot w cid (Widget.overlayW b d w0)) := by
  unfold dialogSetHeight
  rw [hc]
  simp only [Option.some_bind]
  rw [hs]
  rfl

/-- C6: building the dialog body with zero buttons yields exactly the
content row (no divider, no button row); with any button list it yields
one click target per button, each wired to the button's explicit action
when given and otherwise to the enclosing dialog's own `Close`. -/
theorem c6_body_builder (contentId : Nat) (buttons : List Button) :
    newPileOf contentId [] = [BodyPart.contentRow contentId]
    ∧ clickTargets (newPileOf contentId buttons) = buttons.map buttonTarget
    ∧ (clickTargets (newPileOf contentId buttons)).length = buttons.length
    ∧ (∀ b ∈ buttons, b.action = none → buttonTarget b = ClickAction.closeSelf)
    ∧ (∀ b ∈ buttons, ∀ f, b.action = some f →
        buttonTarget b = ClickAction.action f) := by
  have h2 : clickTargets (newPileOf contentId buttons) = buttons.map buttonTarget := by
    cases buttons with
    | nil => rfl
    | cons b bs => simp [newPileOf, clickTargets]
  refine ⟨rfl, h2, by rw [h2, List.length_map], ?_, ?_⟩
  · intro b _ hnone
    simp [buttonTarget, hnone]
  · intro b _ f hf
    simp [buttonTarget, hf]

/-- C7: from an unmaximized `Maximizer` and an open dialog (the saved
container's child is the live overlay), `Maximize` succeeds and returns
true; a second consecutive `Maximize` returns false and changes neither the
`Maximizer` nor the world; `Unmaximize` then restores exactly the prior
width and height policies and clears `maxed`; `Unmaximize` without a
preceding `Maximize` returns false and changes nothing. -/
theorem c7_maximize_roundtrip (m : Maximizer) (w : World) (cid : Nat)
    (b : Widget) (h0 w0 : Dim)
    (hm : m.maxed = false)
    (hc : w.dialog.savedContainer = some cid)
    (hs : w.slots cid = Widget.overlayW b h0 w0) :
    ∃ m1 w1, Maximize m w = some (m1, w1, true)
      ∧ Maximize m1 w1 = some (m1, w1, false)
      ∧ Unmaximize m w = some (m, w, false)
      ∧ ∃ m2 w2, Unmaximize m1 w1 = some (m2, w2, true)
        ∧ dialogWidth w2 = some w0 ∧ dialogHeight w2 = some h0
        ∧ m2.maxed = false := by
  have ew := dialogWidth_eq w cid b h0 w0 hc hs
  have eh := dialogHeight_eq w cid b h0 w0 hc hs
  have e1 := dialogSetWidth_eq w cid b h0 w0 (Dim.renderWithRat 1) hc hs
  have hc1 : (setSlot w cid (Widget.overlayW b h0 (Dim.renderWithRat 1))).dialog.savedContainer
      = some cid := by simpa using hc
  have hs1 : (setSlot w cid (Widget.overlayW b h0 (Dim.renderWithRat 1))).slots cid
      = Widget.overlayW b h0 (Dim.renderWithRat 1) := by simp
  have e2 := dialogSetHeight_eq _ cid b h0 (Dim.renderWithRat 1)
    (Dim.renderWithRat 1) hc1 hs1
  refine ⟨{ maxed := true, width := w0, height := h0 },
    setSlot (setSlot w cid (Widget.overlayW b h0 (Dim.renderWithRat 1))) cid
      (Widget.overlayW b (Dim.renderWithRat 1) (Dim.renderWithRat 1)),
    ?_, ?_, ?_, ?_⟩
  · unfold Maximize
    rw [hm]
    simp only [Bool.false_eq_true, if_false, ew, eh, e1, e2,
      Option.some_bind, Option.map_some']
  · rfl
  · unfold Unmaximize
    rw [hm]
    rfl
  · have hc2 : (setSlot (setSlot w cid (Widget.overlayW b h0 (Dim.renderWithRat 1))) cid
        (Widget.overlayW b (Dim.renderWithRat 1) (Dim.renderWithRat 1))).dialog.savedContainer
        = some cid := by simpa using hc
    have hs2 : (setSlot (setSlot w cid (Widget.overlayW b h0 (Dim.renderWithRat 1))) cid
        (Widget.overlayW b (Dim.renderWithRat 1) (Dim.renderWithRat 1))).slots cid
        = Widget.overlayW b (Dim.renderWithRat 1) (Dim.renderWithRat 1) := by simp
    have e3 := dialogSetWidth_eq _ cid b (Dim.renderWithRat 1) (Dim.renderWithRat 1)
      w0 hc2 hs2
    have hc3 : (setSlot (setSlot (setSlot w cid (Widget.overlayW b h0 (Dim.renderWithRat 1))) cid
        (Widget.overlayW b (Dim.renderWithRat 1) (Dim.renderWithRat 1))) cid
        (Widget.overlayW b (Dim.renderWithRat 1) w0)).dialog.savedContainer = some cid := by
      simpa using hc
    have hs3 : (setSlot (setSlot (setSlot w cid (Widget.overlayW b h0 (Dim.renderWithRat 1))) cid
        (Widget.overlayW b (Dim.renderWithRat 1) (Dim.renderWithRat 1))) cid
        (Widget.overlayW b (Dim.renderWithRat 1) w0)).slots cid
        = Widget.overlayW b (Dim.renderWithRat 1) w0 := by simp
    have e4 := dialogSetHeight_eq _ cid b (Dim.renderWithRat 1) w0 h0 hc3 hs3
    refine ⟨{ maxed := false, width := w0, height := h0 },
      setSlot (setSlot (setSlot (setSlot w cid (Widget.overlayW b h0 (Dim.renderWithRat 1))) cid
          (Widget.overlayW b (Dim.renderWithRat 1) (Dim.renderWithRat 1))) cid
          (Widget.overlayW b (Dim.renderWithRat 1) w0)) cid
        (Widget.overlayW b h0 w0),
      ?_, ?_, ?_, rfl⟩
    · unfold Unmaximize
      simp only [Bool.not_true, Bool.false_eq_true, if_false, e3, e4,
        Option.some_bind, Option.map_some']
    · refine dialogWidth_eq _ cid b h0 w0 ?_ ?_
      · simpa using hc
      · simp
    · refine dialogHeight_eq _ cid b h0 w0 ?_ ?_
      · simpa using hc
      · simp

/-- Witness for C7: a freshly constructed `Maximizer` on a dialog just
opened over container 0. -/
theorem c7_witness :
    (Maximizer.mk false Dim.nilD Dim.nilD).maxed = false ∧
    (Open (mkWorld (fun _ => Widget.base 3) false) 0 Dim.renderFixed).dialog.savedContainer = some 0 ∧
    (Open (mkWorld (fun _ => Widget.base 3) false) 0 Dim.renderFixed).slots 0
      = Widget.overlayW (Widget.base 3) Dim.renderFlow Dim.renderFixed ∧
    (∃ m1 w1, Maximize (Maximizer.mk false Dim.nilD Dim.nilD)
          (Open (mkWorld (fun _ => Widget.base 3) false) 0 Dim.renderFixed) = some (m1, w1, true)
      ∧ Maximize m1 w1 = some (m1, w1, false)
      ∧ Unmaximize (Maximizer.mk false Dim.nilD Dim.nilD)
          (Open (mkWorld (fun _ => Widget.base 3) false) 0 Dim.renderFixed)
          = some (Maximizer.mk false Dim.nilD Dim.nilD,
              Open (mkWorld (fun _ => Widget.base 3) false) 0 Dim.renderFixed, false)
      ∧ ∃ m2 w2, Unmaximize m1 w1 = some (m2, w2, true)
        ∧ dialogWidth w2 = some Dim.renderFixed ∧ dialogHeight w2 = some Dim.renderFlow
        ∧ m2.maxed = false) :=
  ⟨rfl, by simp [Open], by simp [Open, mkWorld],
    c7_maximize_roundtrip (Maximizer.mk false Dim.nilD Dim.nilD)
      (Open (mkWorld (fun _ => Widget.base 3) false) 0 Dim.renderFixed) 0
      (Widget.base 3) Dim.renderFlow Dim.renderFixed rfl
      (by simp [Open]) (by simp [Open, mkWorld])⟩

/-- C8: `OpenExt` sets the dialog body's content wrapper to `RenderFixed`
exactly when the supplied width policy satisfies the `IRenderFixed` test
("size to natural content width"), and otherwise to
`RenderWithWeight{W: 1}`; and `Open` is exactly `OpenExt` with a
`RenderFlow` (fit-to-content) height policy. -/
theorem c8_content_sizing (w : World) (cid : Nat) (width height : Dim) :
    ((OpenExt w cid width height).dialog.contentWrapperD =
      if isRenderFixed width then Dim.renderFixed else Dim.renderWithWeight 1)
    ∧ Open w cid width = OpenExt w cid width Dim.renderFlow := by
  constructor
  · unfold OpenExt
    cases h : isRenderFixed width <;>
      simp [h, SetContentWidth, SetSavedSubWidget, SetSavedContainer]
  · rfl

/-- C10: after a completed `Open`/`Close` cycle, the saved references still
hold the last-opened container and child, so a second consecutive `Close`
succeeds, leaves every container slot unchanged (it rewrites the same child
into the same container), and leaves the dialog state — in particular the
open/close fire count — untouched. -/
theorem c10_double_close_harmless (w : World) (cid : Nat) (width : Dim) :
    ∃ w2 w3, Close (Open w cid width) = some w2
      ∧ w2.dialog.savedContainer = some cid
      ∧ w2.dialog.savedSubWidgetWidget = w.slots cid
      ∧ Close w2 = some w3
      ∧ w3.dialog = w2.dialog
      ∧ ∀ c, w3.slots c = w2.slots c := by
  have hc := Close_eq (Open w cid width) cid (by simp [Open])
  set w2 := setOpen (setSlot (Open w cid width) cid
    (Open w cid width).dialog.savedSubWidgetWidget) false with hw2
  have hc2 : w2.dialog.savedContainer = some cid := by simp [hw2, Open]
  have hsub2 : w2.dialog.savedSubWidgetWidget = w.slots cid := by simp [hw2, Open]
  have hiso2 : w2.dialog.isOpen = false := by simp [hw2]
  have hslot2 : w2.slots cid = w.slots cid := by simp [hw2, Open]
  have hnoop : setOpen (setSlot w2 cid w2.dialog.savedSubWidgetWidget) false
      = setSlot w2 cid w2.dialog.savedSubWidgetWidget :=
    setOpen_noop _ _ (by simpa using hiso2)
  refine ⟨w2, setSlot w2 cid w2.dialog.savedSubWidgetWidget, hc, hc2, hsub2,
    ?_, rfl, ?_⟩
  · rw [Close_eq w2 cid hc2, hnoop]
  · intro c
    simp only [setSlot_slots]
    split
    · rename_i hcid
      subst hcid
      rw [hsub2, hslot2]
    · rfl

/-- Witness for C6 at a concrete button list: one explicit action and one
defaulted (self-closing) button. -/
theorem c6_witness :
    newPileOf 2 [] = [BodyPart.contentRow 2]
    ∧ clickTargets (newPileOf 2 [Button.mk "Ok" (some 4), Button.mk "Close" none])
        = [Button.mk "Ok" (some 4), Button.mk "Close" none].map buttonTarget
    ∧ (clickTargets (newPileOf 2 [Button.mk "Ok" (some 4), Button.mk "Close" none])).length
        = [Button.mk "Ok" (some 4), Button.mk "Close" none].length
    ∧ (∀ b ∈ [Button.mk "Ok" (some 4), Button.mk "Close" none], b.action = none →
        buttonTarget b = ClickAction.closeSelf)
    ∧ (∀ b ∈ [Button.mk "Ok" (some 4), Button.mk "Close" none], ∀ f, b.action = some f →
        buttonTarget b = ClickAction.action f) :=
  c6_body_builder 2 [Button.mk "Ok" (some 4), Button.mk "Close" none]

/-- Witness for C10 at a concrete world: container 0 holding `base 9`. -/
theorem c10_witness :
    ∃ w2 w3, Close (Open (mkWorld (fun _ => Widget.base 9) false) 0 Dim.renderFlow) = some w2
      ∧ w2.dialog.savedContainer = some 0
      ∧ w2.dialog.savedSubWidgetWidget = (mkWorld (fun _ => Widget.base 9) false).slots 0
      ∧ Close w2 = some w3
      ∧ w3.dialog = w2.dialog
      ∧ ∀ c, w3.slots c = w2.slots c :=
  c10_double_close_harmless (mkWorld (fun _ => Widget.base 9) false) 0 Dim.renderFlow

end GowidDialog
